import Mathlib

/-!
Shallow embedding of the Library_Manage backend (backend/server.js, the
enhanced variant) for verification of its natural-language specification.

Conventions of the embedding:
* MongoDB ObjectIds are modelled as `Nat` identifiers.
* JavaScript `Date` values are modelled as `Int` millisecond timestamps.
* A JS field that can hold `null` is modelled as an `Option`.
* A JS request field that may be absent-or-falsy (`undefined`, `null`, `""`)
  is modelled as an `Option` with `none` for the absent/falsy case, because
  the handlers test these fields with truthiness (`!data.title`,
  `data.genre || "Unknown"`).
* `parseInt(x)` is modelled by its result: `Option Int`, `none` for `NaN`.
* Each Mongo collection is a Lean list in insertion order (`insertOne`
  appends); `findOne`/`updateOne`/`deleteOne` act on the first match.
-/

namespace LibraryManage

/-- Error taxonomy of the HTTP handlers (spec §7). -/
inductive LibError where
  | missingField
  | conflict
  | notFound
  deriving DecidableEq, Repr

instance {ε α : Type} [DecidableEq ε] [DecidableEq α] : DecidableEq (Except ε α)
  | .error a, .error b =>
    if h : a = b then .isTrue (by rw [h]) else .isFalse (by intro hc; cases hc; exact h rfl)
  | .error _, .ok _ => .isFalse (by intro hc; cases hc)
  | .ok _, .error _ => .isFalse (by intro hc; cases hc)
  | .ok a, .ok b =>
    if h : a = b then .isTrue (by rw [h]) else .isFalse (by intro hc; cases hc; exact h rfl)

/-- A book record, as created by `POST /books` in server.js. -/
structure Book where
  id : Nat
  title : String
  author : String
  genre : String
  year : Option Int
  isbn : Option String
  cover : String
  status : String
  borrowedBy : Option Nat
  dueDate : Option Int
  borrowCount : Nat
  createdAt : Int
  updatedAt : Int
  deriving DecidableEq, Repr

/-- An entry of `member.borrowedBooks` pushed by the `/borrow` handler. -/
structure BorrowedEntry where
  bookId : Nat
  borrowedOn : Int
  dueDate : Int
  deriving DecidableEq, Repr

/-- A member record, as created by `POST /members` in server.js. -/
structure Member where
  id : Nat
  name : String
  email : String
  role : String
  borrowedBooks : List BorrowedEntry
  createdAt : Int
  deriving DecidableEq, Repr

/-- A row of the `BorrowLogs` collection (the loan ledger). -/
structure LoanRecord where
  bookId : Nat
  memberId : Nat
  borrowedOn : Int
  dueDate : Int
  returnedOn : Option Int
  fine : Int
  deriving DecidableEq, Repr

/-- The three stores the circulation service touches. -/
structure LibState where
  books : List Book
  members : List Member
  loans : List LoanRecord
  deriving DecidableEq, Repr

/-- `updateOne`: apply `f` to the first element satisfying `p`, keep the rest. -/
def updateFirst (p : α → Bool) (f : α → α) : List α → List α
  | [] => []
  | x :: xs => if p x then f x :: xs else x :: updateFirst p f xs

/-- `deleteOne`: remove the first element satisfying `p`. -/
def removeFirst (p : α → Bool) : List α → List α
  | [] => []
  | x :: xs => if p x then xs else x :: removeFirst p xs

/-- `const days = parseInt(data.days) || 7;` (server.js /borrow).
`parseInt` yielding `NaN` (absent or non-numeric input) and the falsy
result `0` both fall back to `7`; every other integer, including a
negative one, is used as is. -/
def parseDays (daysParsed : Option Int) : Int :=
  match daysParsed with
  | none => 7
  | some d => if d = 0 then 7 else d

/-- Milliseconds per day, `24 * 60 * 60 * 1000` in server.js. -/
def dayMs : Int := 86400000

/-- Fine computation of the `/return` handler:
`if (now > due) { fine = Math.ceil((now - due) / 86400000) * 5 }`.
JS number division is modelled exactly over `ℚ`. -/
def computeFine (now due : Int) : Int :=
  if due < now then (Int.ceil (((now - due : Int) : ℚ) / ((dayMs : Int) : ℚ))) * 5 else 0

/-- Request body of `POST /books`.  `none` stands for an absent or falsy
field (the handler tests `!data.title`, `data.genre || "Unknown"` …);
`yearParsed` is the result of `parseInt(data.year)` with `none` for `NaN`. -/
structure BookCreateReq where
  title : Option String
  author : Option String
  genre : Option String
  yearParsed : Option Int
  isbn : Option String
  cover : Option String
  deriving DecidableEq, Repr

/-- The book document `POST /books` inserts for title `t` and author `a`:
all other fields defaulted, `year` is `parseInt(data.year) || null` (so
`NaN` and `0` both become null), `isbn` is `data.isbn || null`. -/
def newBookOf (req : BookCreateReq) (t a : String) (newId : Nat) (now : Int) : Book :=
  { id := newId
    title := t
    author := a
    genre := req.genre.getD "Unknown"
    year := match req.yearParsed with
            | some y => if y = 0 then none else some y
            | none => none
    isbn := req.isbn
    cover := req.cover.getD "/uploads/default-book.jpg"
    status := "Available"
    borrowedBy := none
    dueDate := none
    borrowCount := 0
    createdAt := now
    updatedAt := now }

/-- `POST /books` handler: requires title and author (400 otherwise),
inserts the defaulted Available book.  `newId` is the ObjectId Mongo
generates; `now` is `new Date()`. -/
def createBook (st : LibState) (req : BookCreateReq) (newId : Nat) (now : Int) :
    Except LibError (LibState × Nat) :=
  match req.title, req.author with
  | some title, some author =>
    .ok ({ st with books := st.books ++ [newBookOf req title author newId now] }, newId)
  | _, _ => .error .missingField

/-- Request body of `PUT /books` minus the mandatory `id`; same conventions
as `BookCreateReq`. -/
structure BookUpdateReq where
  title : Option String
  author : Option String
  genre : Option String
  yearParsed : Option Int
  isbn : Option String
  cover : Option String
  deriving DecidableEq, Repr

/-- The `$set` document built by `PUT /books`, applied to the stored book.
`title`/`author`/`genre` are dropped from the update when `undefined`
(the `Object.keys(update).forEach(... delete ...)` line); `year` and `isbn`
are always present in the update, as `parseInt(data.year) || null` and
`data.isbn || null`; `cover` is set only when truthy; `updatedAt` always. -/
def applyBookUpdate (req : BookUpdateReq) (now : Int) (b : Book) : Book :=
  { b with
    title := req.title.getD b.title
    author := req.author.getD b.author
    genre := req.genre.getD b.genre
    year := match req.yearParsed with
            | some y => if y = 0 then none else some y
            | none => none
    isbn := req.isbn
    cover := req.cover.getD b.cover
    updatedAt := now }

/-- `PUT /books` handler: 404 when no book matches the id
(`result.matchedCount === 0`), otherwise `$set` the update document. -/
def updateBook (st : LibState) (id : Nat) (req : BookUpdateReq) (now : Int) :
    Except LibError LibState :=
  match st.books.find? (fun b => b.id == id) with
  | none => .error .notFound
  | some _ =>
    .ok { st with books := updateFirst (fun b => b.id == id) (applyBookUpdate req now) st.books }

/-- `DELETE /books` handler: 404 when the book is missing, otherwise
`deleteOne` (the cover-file unlink is a file-system side effect outside
the stores and is not modelled). -/
def deleteBook (st : LibState) (id : Nat) : Except LibError LibState :=
  match st.books.find? (fun b => b.id == id) with
  | none => .error .notFound
  | some _ => .ok { st with books := removeFirst (fun b => b.id == id) st.books }

/-- `POST /members` handler: name and email required, email must not already
be registered, inserts a member with an empty `borrowedBooks` list. -/
def createMember (st : LibState) (name? email? role? : Option String)
    (newId : Nat) (now : Int) : Except LibError (LibState × Nat) :=
  match name?, email? with
  | some name, some email =>
    if (st.members.find? (fun m => m.email == email)).isSome then
      .error .conflict
    else
      .ok ({ st with members := st.members ++
              [{ id := newId, name := name, email := email,
                 role := role?.getD "student", borrowedBooks := [], createdAt := now }] },
           newId)
  | _, _ => .error .missingField

/-- The `$set`/`$inc` document of `/borrow` applied to the book record. -/
def borrowBookUpd (memberId : Nat) (dueDate : Int) (b : Book) : Book :=
  { b with
    status := "Borrowed"
    borrowedBy := some memberId
    dueDate := some dueDate
    borrowCount := b.borrowCount + 1 }

/-- The `$push` document of `/borrow` applied to the member record. -/
def borrowMemberUpd (bookId : Nat) (borrowedOn dueDate : Int) (m : Member) : Member :=
  { m with borrowedBooks := m.borrowedBooks ++ [⟨bookId, borrowedOn, dueDate⟩] }

/-- `POST /borrow` handler.  Looks up book and member (404 when either is
missing), rejects an already-Borrowed book (400 Conflict), otherwise marks
the book Borrowed with `dueDate = now + days*86400000`, increments
`borrowCount`, pushes a `borrowedBooks` entry, and appends an open loan
record.  Returns the new state and the due date echoed to the caller. -/
def borrow (st : LibState) (bookId memberId : Nat) (daysParsed : Option Int)
    (now : Int) : Except LibError (LibState × Int) :=
  let days := parseDays daysParsed
  match st.books.find? (fun b => b.id == bookId),
        st.members.find? (fun m => m.id == memberId) with
  | some book, some _ =>
    if book.status == "Borrowed" then .error .conflict
    else
      let dueDate := now + days * dayMs
      let books' := updateFirst (fun b => b.id == bookId)
        (borrowBookUpd memberId dueDate) st.books
      let members' := updateFirst (fun m => m.id == memberId)
        (borrowMemberUpd bookId now dueDate) st.members
      let loans' := st.loans ++
        [{ bookId := bookId, memberId := memberId, borrowedOn := now,
           dueDate := dueDate, returnedOn := none, fine := 0 }]
      .ok (⟨books', members', loans'⟩, dueDate)
  | _, _ => .error .notFound

/-- The `$set` document of `/return` applied to the book record. -/
def returnBookUpd (b : Book) : Book :=
  { b with status := "Available", borrowedBy := none, dueDate := none }

/-- The `$pull` document of `/return` applied to the member record:
removes every `borrowedBooks` entry whose `bookId` matches. -/
def returnMemberUpd (bookId : Nat) (m : Member) : Member :=
  { m with borrowedBooks := m.borrowedBooks.filter (fun e => !(e.bookId == bookId)) }

/-- The `$set` document of `/return` applied to the open loan record. -/
def closeLoanUpd (now fine : Int) (l : LoanRecord) : LoanRecord :=
  { l with returnedOn := some now, fine := fine }

/-- `POST /return` handler.  404 when the book is missing, 400 Conflict when
its status is not "Borrowed"; otherwise computes the fine from the book's
due date (`new Date(null)` is the epoch, hence `getD 0`), clears the loan
fields on the book, `$pull`s every `borrowedBooks` entry with this bookId
from the supplied member, and closes the first open loan record for
(bookId, memberId).  No check compares `memberId` with `book.borrowedBy`. -/
def returnBook (st : LibState) (bookId memberId : Nat) (now : Int) :
    Except LibError (LibState × Int) :=
  match st.books.find? (fun b => b.id == bookId) with
  | none => .error .notFound
  | some book =>
    if book.status != "Borrowed" then .error .conflict
    else
      let fine := computeFine now (book.dueDate.getD 0)
      let books' := updateFirst (fun b => b.id == bookId) returnBookUpd st.books
      let members' := updateFirst (fun m => m.id == memberId)
        (returnMemberUpd bookId) st.members
      let loans' := updateFirst
        (fun l => l.bookId == bookId && l.memberId == memberId && l.returnedOn == none)
        (closeLoanUpd now fine)
        st.loans
      .ok (⟨books', members', loans'⟩, fine)

/-- Modelled external behaviour: Mongo's
`Books.find().sort({ borrowCount: -1 })` is modelled as a stable descending
sort of the collection in insertion order (stable insertion: an element is
placed after every earlier element whose borrowCount is ≥ its own). -/
def insertDesc (b : Book) : List Book → List Book
  | [] => [b]
  | x :: xs => if x.borrowCount ≤ b.borrowCount then b :: x :: xs else x :: insertDesc b xs

/-- Stable sort of the book list, descending by `borrowCount`. -/
def sortByBorrowCountDesc : List Book → List Book
  | [] => []
  | x :: xs => insertDesc x (sortByBorrowCountDesc xs)

/-- `GET /reports/most-borrowed` handler:
`Books.find().sort({ borrowCount: -1 }).limit(10)`. -/
def mostBorrowed (st : LibState) : List Book :=
  (sortByBorrowCountDesc st.books).take 10

/-- State left by `PUT /books` (the handler writes nothing on its error
paths, so an error leaves the store as it was). -/
def afterUpdateBook (st : LibState) (id : Nat) (req : BookUpdateReq) (now : Int) : LibState :=
  match updateBook st id req now with
  | .ok st' => st'
  | .error _ => st

/-- State left by `POST /members` (no writes on the error paths). -/
def afterCreateMember (st : LibState) (name? email? role? : Option String)
    (newId : Nat) (now : Int) : LibState :=
  match createMember st name? email? role? newId now with
  | .ok (st', _) => st'
  | .error _ => st

/-- State left by `POST /borrow` (no writes on the error paths: both lookups
and the status check precede every `updateOne`/`insertOne`). -/
def afterBorrow (st : LibState) (bookId memberId : Nat) (daysParsed : Option Int)
    (now : Int) : LibState :=
  match borrow st bookId memberId daysParsed now with
  | .ok (st', _) => st'
  | .error _ => st

/-- State left by `POST /books` (no writes on the error path). -/
def afterCreateBook (st : LibState) (req : BookCreateReq) (newId : Nat) (now : Int) : LibState :=
  match createBook st req newId now with
  | .ok (st', _) => st'
  | .error _ => st

/-- State left by `DELETE /books` (no writes on the error path). -/
def afterDeleteBook (st : LibState) (id : Nat) : LibState :=
  match deleteBook st id with
  | .ok st' => st'
  | .error _ => st

/-- State left by `POST /return` (no writes on the error paths). -/
def afterReturnBook (st : LibState) (bookId memberId : Nat) (now : Int) : LibState :=
  match returnBook st bookId memberId now with
  | .ok (st', _) => st'
  | .error _ => st

/-- Loan-field invariant of a book record (spec §3). -/
def bookInv (b : Book) : Prop :=
  (b.status = "Borrowed" ↔ b.borrowedBy ≠ none ∧ b.dueDate ≠ none) ∧
  (b.status = "Available" ↔ b.borrowedBy = none ∧ b.dueDate = none)

instance (b : Book) : Decidable (bookInv b) := by
  unfold bookInv
  infer_instance

section Helpers

variable {α : Type} {p : α → Bool} {f : α → α} {x : α} {l : List α}

theorem mem_updateFirst (h : x ∈ updateFirst p f l) :
    x ∈ l ∨ ∃ y, y ∈ l ∧ p y = true ∧ x = f y := by
  induction l with
  | nil => simp [updateFirst] at h
  | cons a as ih =>
    by_cases hpa : p a
    · simp only [updateFirst, hpa, if_pos] at h
      rcases List.mem_cons.mp h with h | h
      · exact Or.inr ⟨a, List.mem_cons_self a as, hpa, h⟩
      · exact Or.inl (List.mem_cons_of_mem a h)
    · simp only [updateFirst, hpa, if_neg, Bool.false_eq_true, not_false_iff] at h
      rcases List.mem_cons.mp h with h | h
      · exact Or.inl (h ▸ List.mem_cons_self a as)
      · rcases ih h with h | ⟨y, hy, hpy, hxy⟩
        · exact Or.inl (List.mem_cons_of_mem a h)
        · exact Or.inr ⟨y, List.mem_cons_of_mem a hy, hpy, hxy⟩

theorem mem_updateFirst_of_not (hx : x ∈ l) (hpx : p x = false) :
    x ∈ updateFirst p f l := by
  induction l with
  | nil => simp at hx
  | cons a as ih =>
    rcases List.mem_cons.mp hx with h | h
    · subst h
      simp only [updateFirst, hpx, Bool.false_eq_true, if_neg, not_false_iff]
      exact List.mem_cons_self x _
    · by_cases hpa : p a
      · simp only [updateFirst, hpa, if_pos]
        exact List.mem_cons_of_mem _ h
      · simp only [updateFirst, hpa, Bool.false_eq_true, if_neg, not_false_iff]
        exact List.mem_cons_of_mem a (ih h)

theorem mem_of_mem_removeFirst (h : x ∈ removeFirst p l) : x ∈ l := by
  induction l with
  | nil => simp [removeFirst] at h
  | cons a as ih =>
    by_cases hpa : p a
    · simp only [removeFirst, hpa, if_pos] at h
      exact List.mem_cons_of_mem a h
    · simp only [removeFirst, hpa, Bool.false_eq_true, if_neg, not_false_iff] at h
      rcases List.mem_cons.mp h with h | h
      · exact h ▸ List.mem_cons_self a as
      · exact List.mem_cons_of_mem a (ih h)

theorem find?_updateFirst (h : l.find? p = some x) (hf : p (f x) = true) :
    (updateFirst p f l).find? p = some (f x) := by
  induction l with
  | nil => simp at h
  | cons a as ih =>
    by_cases hpa : p a
    · rw [List.find?_cons_of_pos _ hpa] at h
      injection h with h
      subst h
      simp only [updateFirst, hpa, if_pos]
      exact List.find?_cons_of_pos _ hf
    · rw [List.find?_cons_of_neg _ (by simpa using hpa)] at h
      simp only [updateFirst, hpa, Bool.false_eq_true, if_neg, not_false_iff]
      rw [List.find?_cons_of_neg _ (by simpa using hpa)]
      exact ih h

theorem find?_updateFirst_append (h : l.find? p = none) (hx : p x = true) :
    (l ++ [x]).find? p = some x := by
  induction l with
  | nil => simpa using hx
  | cons a as ih =>
    by_cases hpa : p a
    · rw [List.find?_cons_of_pos _ hpa] at h
      exact absurd h (by simp)
    · rw [List.find?_cons_of_neg _ (by simpa using hpa)] at h
      rw [List.cons_append, List.find?_cons_of_neg _ (by simpa using hpa)]
      exact ih h

end Helpers

/-- `Math.ceil` of an exact integer quotient, as integer division. -/
theorem ceilq_eq_ediv (a b : Int) (hb : 0 < b) :
    Int.ceil ((a : ℚ) / (b : ℚ)) = (a + b - 1) / b := by
  have hbq : (0 : ℚ) < (b : ℚ) := by exact_mod_cast hb
  rw [Int.ceil_eq_iff]
  have h1 : (a + b - 1) / b * b ≤ a + b - 1 := Int.ediv_mul_le _ (ne_of_gt hb)
  have h2 : a + b - 1 < ((a + b - 1) / b + 1) * b := Int.lt_ediv_add_one_mul_self _ hb
  have e1 : ((a + b - 1) / b - 1) * b < a := by nlinarith
  have e2 : a ≤ (a + b - 1) / b * b := by nlinarith
  constructor
  · rw [lt_div_iff₀ hbq]
    exact_mod_cast e1
  · rw [div_le_iff₀ hbq]
    exact_mod_cast e2

/-- Executable characterization of the fine computation. -/
theorem computeFine_eq (now due : Int) :
    computeFine now due =
      if due < now then (now - due + dayMs - 1) / dayMs * 5 else 0 := by
  unfold computeFine
  by_cases h : due < now
  · rw [if_pos h, if_pos h, ceilq_eq_ediv _ _ (by decide : (0 : Int) < dayMs)]
  · rw [if_neg h, if_neg h]

section SortHelpers

theorem mem_insertDesc {x b : Book} {l : List Book} (h : x ∈ insertDesc b l) :
    x = b ∨ x ∈ l := by
  induction l with
  | nil => simpa [insertDesc] using h
  | cons a as ih =>
    by_cases hc : a.borrowCount ≤ b.borrowCount
    · simp only [insertDesc, hc, if_pos] at h
      simpa using h
    · simp only [insertDesc, hc, if_neg, not_false_iff] at h
      rcases List.mem_cons.mp h with h | h
      · exact Or.inr (h ▸ List.mem_cons_self a as)
      · rcases ih h with h | h
        · exact Or.inl h
        · exact Or.inr (List.mem_cons_of_mem a h)

theorem pairwise_insertDesc {b : Book} {l : List Book}
    (h : l.Pairwise (fun x y => y.borrowCount ≤ x.borrowCount)) :
    (insertDesc b l).Pairwise (fun x y => y.borrowCount ≤ x.borrowCount) := by
  induction l with
  | nil => simp [insertDesc]
  | cons a as ih =>
    rcases List.pairwise_cons.mp h with ⟨ha, has⟩
    by_cases hc : a.borrowCount ≤ b.borrowCount
    · simp only [insertDesc, hc, if_pos]
      refine List.pairwise_cons.mpr ⟨?_, h⟩
      intro y hy
      rcases List.mem_cons.mp hy with hy | hy
      · exact hy ▸ hc
      · exact le_trans (ha y hy) hc
    · simp only [insertDesc, hc, if_neg, not_false_iff]
      refine List.pairwise_cons.mpr ⟨?_, ih has⟩
      intro y hy
      rcases mem_insertDesc hy with hy | hy
      · exact hy ▸ le_of_not_le hc
      · exact ha y hy

theorem pairwise_sortByBorrowCountDesc (l : List Book) :
    (sortByBorrowCountDesc l).Pairwise (fun x y => y.borrowCount ≤ x.borrowCount) := by
  induction l with
  | nil => simp [sortByBorrowCountDesc]
  | cons a as ih => exact pairwise_insertDesc ih

theorem filter_insertDesc (c : Nat) (b : Book) (l : List Book) :
    (insertDesc b l).filter (fun x => x.borrowCount == c) =
      (if b.borrowCount == c then [b] else []) ++ l.filter (fun x => x.borrowCount == c) := by
  induction l with
  | nil =>
    simp only [insertDesc, List.filter_cons, List.filter_nil]
    by_cases hb : b.borrowCount = c <;> simp [hb]
  | cons a as ih =>
    by_cases hc : a.borrowCount ≤ b.borrowCount
    · simp only [insertDesc, hc, if_pos]
      by_cases hb : b.borrowCount = c <;> simp [List.filter_cons, hb]
    · simp only [insertDesc, hc, if_neg, not_false_iff]
      have hane : (a.borrowCount == c) = false ∨ (b.borrowCount == c) = false := by
        by_cases hb : b.borrowCount = c
        · left
          have : ¬ a.borrowCount = c := fun hac => hc (le_of_eq (hac.trans hb.symm))
          simpa using this
        · right
          simpa using hb
      rw [List.filter_cons, List.filter_cons, ih]
      rcases hane with ha | hb
      · by_cases hbc : b.borrowCount = c
        · simp [ha, hbc]
        · simp [ha, hbc]
      · simp [hb]

theorem filter_sortByBorrowCountDesc (c : Nat) (l : List Book) :
    (sortByBorrowCountDesc l).filter (fun x => x.borrowCount == c) =
      l.filter (fun x => x.borrowCount == c) := by
  induction l with
  | nil => simp [sortByBorrowCountDesc]
  | cons a as ih =>
    rw [sortByBorrowCountDesc, filter_insertDesc, ih, List.filter_cons]
    by_cases hb : a.borrowCount = c
    · simp [hb]
    · simp [hb]

end SortHelpers

/-- Fixture: an Available book, as `POST /books` creates it. -/
def demoBook : Book :=
  { id := 1, title := "Dune", author := "Herbert", genre := "Unknown", year := none,
    isbn := none, cover := "/uploads/default-book.jpg", status := "Available",
    borrowedBy := none, dueDate := none, borrowCount := 0, createdAt := 0, updatedAt := 0 }

/-- Fixture: a member. -/
def demoMember : Member :=
  { id := 1, name := "Alice", email := "a@x.com", role := "student",
    borrowedBooks := [], createdAt := 0 }

/-- Fixture: a second member. -/
def demoMember2 : Member :=
  { id := 2, name := "Bob", email := "b@x.com", role := "student",
    borrowedBooks := [], createdAt := 0 }

/-- Fixture: library with one Available book and two members. -/
def demoSt : LibState :=
  { books := [demoBook], members := [demoMember, demoMember2], loans := [] }

/-- Fixture: `demoBook` after member 1 borrowed it for 7 days at time 0. -/
def demoBorrowedBook : Book :=
  { demoBook with
    status := "Borrowed"
    borrowedBy := some 1
    dueDate := some 604800000
    borrowCount := 1 }

/-- Fixture: library state after `Borrow(1, 1, days=7)` at time 0. -/
def demoBorrowedSt : LibState :=
  { books := [demoBorrowedBook],
    members := [{ demoMember with borrowedBooks := [⟨1, 0, 604800000⟩] }, demoMember2],
    loans := [{ bookId := 1, memberId := 1, borrowedOn := 0, dueDate := 604800000,
                returnedOn := none, fine := 0 }] }

/-- C1: on `Return` of an existing book with status=Borrowed, the returned
fine is 0 when `now ≤ dueDate`, and `ceil((now − dueDate)/86400000ms) * 5`
when `now > dueDate`, so any partial day late counts as a full day. -/
theorem return_fine_spec (st : LibState) (bookId memberId : Nat) (now due : Int)
    (book : Book)
    (hfind : st.books.find? (fun b => b.id == bookId) = some book)
    (hstat : book.status = "Borrowed")
    (hdue : book.dueDate = some due) :
    ∃ st' fine, returnBook st bookId memberId now = .ok (st', fine) ∧
      (now ≤ due → fine = 0) ∧
      (due < now → fine = Int.ceil (((now - due : Int) : ℚ) / ((dayMs : Int) : ℚ)) * 5) ∧
      (∀ k : Int, dayMs * (k - 1) < now - due → now - due ≤ dayMs * k → due < now →
        fine = k * 5) := by
  have hne : (book.status != "Borrowed") = false := by rw [hstat]; rfl
  simp only [returnBook, hfind, hne, Bool.false_eq_true, if_false, hdue, Option.getD_some]
  refine ⟨_, computeFine now due, rfl, ?_, ?_, ?_⟩
  · intro h
    simp [computeFine, not_lt.mpr h]
  · intro h
    simp [computeFine, h]
  · intro k hk1 hk2 h
    rw [computeFine_eq, if_pos h]
    have : (now - due + dayMs - 1) / dayMs = k := by
      simp only [dayMs] at hk1 hk2 ⊢
      omega
    rw [this]

/-- Witness for C1: returning the demo book 10 days late yields fine 50. -/
theorem return_fine_spec_witness :
    (demoBorrowedSt.books.find? (fun b => b.id == 1) = some demoBorrowedBook ∧
      demoBorrowedBook.status = "Borrowed" ∧
      demoBorrowedBook.dueDate = some 604800000) ∧
    (∃ st' fine, returnBook demoBorrowedSt 1 1 1468800000 = .ok (st', fine) ∧
      ((1468800000 : Int) ≤ 604800000 → fine = 0) ∧
      ((604800000 : Int) < 1468800000 →
        fine = Int.ceil ((((1468800000 - 604800000 : Int)) : ℚ) / ((dayMs : Int) : ℚ)) * 5) ∧
      (∀ k : Int, dayMs * (k - 1) < 1468800000 - 604800000 →
        (1468800000 : Int) - 604800000 ≤ dayMs * k → (604800000 : Int) < 1468800000 →
        fine = k * 5)) :=
  ⟨⟨by decide, by decide, by decide⟩,
   return_fine_spec demoBorrowedSt 1 1 1468800000 604800000 demoBorrowedBook
     (by decide) (by decide) (by decide)⟩

/-- C2: a valid `Borrow` of an Available book for `d` days sets
`dueDate = now + d*86400000ms`, marks the book Borrowed, increments its
`borrowCount` by one, appends one entry to `member.borrowedBooks`, appends
an open loan record, and echoes the due date to the caller. -/
theorem borrow_success_spec (st : LibState) (bookId memberId : Nat) (d now : Int)
    (book : Book) (mem : Member)
    (hb : st.books.find? (fun b => b.id == bookId) = some book)
    (hm : st.members.find? (fun m => m.id == memberId) = some mem)
    (hstat : book.status = "Available") (hd : 0 < d) :
    ∃ st', borrow st bookId memberId (some d) now = .ok (st', now + d * dayMs) ∧
      st'.books.find? (fun b => b.id == bookId) =
        some { book with
               status := "Borrowed"
               borrowedBy := some memberId
               dueDate := some (now + d * dayMs)
               borrowCount := book.borrowCount + 1 } ∧
      st'.members.find? (fun m => m.id == memberId) =
        some { mem with borrowedBooks := mem.borrowedBooks ++ [⟨bookId, now, now + d * dayMs⟩] } ∧
      st'.loans = st.loans ++
        [{ bookId := bookId, memberId := memberId, borrowedOn := now,
           dueDate := now + d * dayMs, returnedOn := none, fine := 0 }] := by
  have hpb := List.find?_some hb
  have hpm := List.find?_some hm
  have hsb : (book.status == "Borrowed") = false := by rw [hstat]; rfl
  have hdays : parseDays (some d) = d := by
    have : ¬ d = 0 := by omega
    simp [parseDays, this]
  simp only [borrow, hb, hm, hdays, hsb, Bool.false_eq_true, if_false]
  refine ⟨_, rfl, ?_, ?_, rfl⟩
  · exact find?_updateFirst hb hpb
  · exact find?_updateFirst hm hpm

/-- Reduction helper: a borrow whose lookups succeed on a non-Borrowed book. -/
theorem borrow_ok (st : LibState) (bookId memberId : Nat) (daysParsed : Option Int)
    (now : Int) (book : Book) (mem : Member)
    (hb : st.books.find? (fun b => b.id == bookId) = some book)
    (hm : st.members.find? (fun m => m.id == memberId) = some mem)
    (hsb : (book.status == "Borrowed") = false) :
    borrow st bookId memberId daysParsed now =
      .ok (⟨updateFirst (fun b => b.id == bookId)
              (borrowBookUpd memberId (now + parseDays daysParsed * dayMs)) st.books,
            updateFirst (fun m => m.id == memberId)
              (borrowMemberUpd bookId now (now + parseDays daysParsed * dayMs)) st.members,
            st.loans ++
              [{ bookId := bookId, memberId := memberId, borrowedOn := now,
                 dueDate := now + parseDays daysParsed * dayMs,
                 returnedOn := none, fine := 0 }]⟩,
           now + parseDays daysParsed * dayMs) := by
  simp only [borrow, hb, hm, hsb, Bool.false_eq_true, if_false]

/-- Reduction helper: a return whose book lookup finds a Borrowed book. -/
theorem returnBook_ok (st : LibState) (bookId memberId : Nat) (now : Int) (book : Book)
    (hb : st.books.find? (fun b => b.id == bookId) = some book)
    (hstat : book.status = "Borrowed") :
    returnBook st bookId memberId now =
      .ok (⟨updateFirst (fun b => b.id == bookId) returnBookUpd st.books,
            updateFirst (fun m => m.id == memberId) (returnMemberUpd bookId) st.members,
            updateFirst
              (fun l => l.bookId == bookId && l.memberId == memberId && l.returnedOn == none)
              (closeLoanUpd now (computeFine now (book.dueDate.getD 0)))
              st.loans⟩,
           computeFine now (book.dueDate.getD 0)) := by
  have hne : (book.status != "Borrowed") = false := by rw [hstat]; rfl
  simp only [returnBook, hb, hne, Bool.false_eq_true, if_false]

/-- Witness for C2: borrowing the demo book for 7 days at time 0. -/
theorem borrow_success_spec_witness :
    (demoSt.books.find? (fun b => b.id == 1) = some demoBook ∧
      demoSt.members.find? (fun m => m.id == 1) = some demoMember ∧
      demoBook.status = "Available" ∧ (0 : Int) < 7) ∧
    (∃ st', borrow demoSt 1 1 (some 7) 0 = .ok (st', 0 + 7 * dayMs) ∧
      st'.books.find? (fun b => b.id == 1) =
        some { demoBook with
               status := "Borrowed"
               borrowedBy := some 1
               dueDate := some (0 + 7 * dayMs)
               borrowCount := demoBook.borrowCount + 1 } ∧
      st'.members.find? (fun m => m.id == 1) =
        some { demoMember with borrowedBooks :=
                demoMember.borrowedBooks ++ [⟨1, 0, 0 + 7 * dayMs⟩] } ∧
      st'.loans = demoSt.loans ++
        [{ bookId := 1, memberId := 1, borrowedOn := 0,
           dueDate := 0 + 7 * dayMs, returnedOn := none, fine := 0 }]) :=
  ⟨⟨by decide, by decide, by decide, by decide⟩,
   borrow_success_spec demoSt 1 1 7 0 demoBook demoMember
     (by decide) (by decide) (by decide) (by decide)⟩

/-- Counterexample to C3: `parseInt(data.days) || 7` only falls back to 7
for `NaN` and `0`; a negative integer passes through, so borrowing for
`days = -3` uses a loan period of -3 days (a due date in the past), not 7. -/
theorem borrow_negative_days_cx :
    parseDays (some (-3)) = -3 ∧
    (borrow demoSt 1 1 (some (-3)) 0).toOption.map Prod.snd = some (-259200000) ∧
    (-259200000 : Int) ≠ 0 + 7 * dayMs := by
  refine ⟨by decide, ?_, by decide⟩
  decide

/-- C3 amended: a non-numeric (`NaN`) or zero days argument defaults to 7;
every other integer, positive or negative, is used as the loan period. -/
theorem parse_days_amended :
    parseDays none = 7 ∧ parseDays (some 0) = 7 ∧
    ∀ d : Int, d ≠ 0 → parseDays (some d) = d := by
  refine ⟨rfl, rfl, ?_⟩
  intro d hd
  simp [parseDays, hd]

/-- Witness for the amended C3 at `d = -3`. -/
theorem parse_days_amended_witness :
    ((-3 : Int) ≠ 0) ∧ parseDays (some (-3)) = -3 :=
  ⟨by decide, parse_days_amended.2.2 (-3) (by decide)⟩

/-- Counterexample to C4: a Borrow of a Borrowed book whose memberId does
not resolve fails NotFound, not Conflict (the handler checks existence of
both records before the status check). -/
theorem borrow_conflict_cx :
    demoBorrowedSt.books.find? (fun b => b.id == 1) = some demoBorrowedBook ∧
    demoBorrowedBook.status = "Borrowed" ∧
    borrow demoBorrowedSt 1 99 none 0 = .error .notFound ∧
    LibError.notFound ≠ LibError.conflict := by
  refine ⟨by decide, by decide, ?_, by decide⟩
  decide

/-- C4 amended: a Borrow of a Borrowed book fails with Conflict whenever the
memberId also resolves (NotFound otherwise), and in every case it leaves
the three stores unchanged. -/
theorem borrow_conflict_amended (st : LibState) (bookId memberId : Nat)
    (daysParsed : Option Int) (now : Int) (book : Book)
    (hb : st.books.find? (fun b => b.id == bookId) = some book)
    (hstat : book.status = "Borrowed") :
    ((st.members.find? (fun m => m.id == memberId)).isSome = true →
      borrow st bookId memberId daysParsed now = .error .conflict) ∧
    afterBorrow st bookId memberId daysParsed now = st := by
  have hsb : (book.status == "Borrowed") = true := by rw [hstat]; rfl
  constructor
  · intro hmem
    rcases Option.isSome_iff_exists.mp hmem with ⟨mem, hm⟩
    simp [borrow, hb, hm, hsb]
  · unfold afterBorrow
    cases hcase : st.members.find? (fun m => m.id == memberId) with
    | none => simp [borrow, hb, hcase]
    | some mem => simp [borrow, hb, hcase, hsb]

/-- Witness for the amended C4: borrowing the already-borrowed demo book. -/
theorem borrow_conflict_amended_witness :
    (demoBorrowedSt.books.find? (fun b => b.id == 1) = some demoBorrowedBook ∧
      demoBorrowedBook.status = "Borrowed") ∧
    (((demoBorrowedSt.members.find? (fun m => m.id == 1)).isSome = true →
        borrow demoBorrowedSt 1 1 none 5 = .error .conflict) ∧
      afterBorrow demoBorrowedSt 1 1 none 5 = demoBorrowedSt) :=
  ⟨⟨by decide, by decide⟩,
   borrow_conflict_amended demoBorrowedSt 1 1 none 5 demoBorrowedBook (by decide) (by decide)⟩

/-- C5: borrowing an Available book and then returning it restores the book
to its pre-borrow shape — status Available, `borrowedBy` and `dueDate`
absent — except that `borrowCount` keeps its post-borrow (incremented)
value. -/
theorem borrow_return_roundtrip (st : LibState) (bookId memberId : Nat)
    (daysParsed : Option Int) (now now2 : Int) (book : Book) (mem : Member)
    (hb : st.books.find? (fun b => b.id == bookId) = some book)
    (hm : st.members.find? (fun m => m.id == memberId) = some mem)
    (hstat : book.status = "Available")
    (hbb : book.borrowedBy = none) (hdd : book.dueDate = none) :
    ∃ st1 due st2 fine,
      borrow st bookId memberId daysParsed now = .ok (st1, due) ∧
      returnBook st1 bookId memberId now2 = .ok (st2, fine) ∧
      st2.books.find? (fun b => b.id == bookId) =
        some { book with borrowCount := book.borrowCount + 1 } := by
  have hpb := List.find?_some hb
  have hsb : (book.status == "Borrowed") = false := by rw [hstat]; rfl
  have h1 := borrow_ok st bookId memberId daysParsed now book mem hb hm hsb
  have hb1 : (updateFirst (fun b => b.id == bookId)
      (borrowBookUpd memberId (now + parseDays daysParsed * dayMs)) st.books).find?
        (fun b => b.id == bookId) =
      some (borrowBookUpd memberId (now + parseDays daysParsed * dayMs) book) :=
    find?_updateFirst hb hpb
  have h2 := returnBook_ok
      ⟨updateFirst (fun b => b.id == bookId)
         (borrowBookUpd memberId (now + parseDays daysParsed * dayMs)) st.books,
       updateFirst (fun m => m.id == memberId)
         (borrowMemberUpd bookId now (now + parseDays daysParsed * dayMs)) st.members,
       st.loans ++
         [{ bookId := bookId, memberId := memberId, borrowedOn := now,
            dueDate := now + parseDays daysParsed * dayMs,
            returnedOn := none, fine := 0 }]⟩
      bookId memberId now2
      (borrowBookUpd memberId (now + parseDays daysParsed * dayMs) book) hb1 rfl
  refine ⟨_, _, _, _, h1, h2, ?_⟩
  have hfinal := find?_updateFirst (f := returnBookUpd) hb1 hpb
  rw [hfinal]
  show some (Book.mk book.id book.title book.author book.genre book.year book.isbn
      book.cover "Available" none none (book.borrowCount + 1)
      book.createdAt book.updatedAt) = _
  rw [← hstat, ← hbb, ← hdd]

/-- Witness for C5: borrow then return of the demo book. -/
theorem borrow_return_roundtrip_witness :
    (demoSt.books.find? (fun b => b.id == 1) = some demoBook ∧
      demoSt.members.find? (fun m => m.id == 1) = some demoMember ∧
      demoBook.status = "Available" ∧
      demoBook.borrowedBy = none ∧ demoBook.dueDate = none) ∧
    (∃ st1 due st2 fine,
      borrow demoSt 1 1 (some 7) 0 = .ok (st1, due) ∧
      returnBook st1 1 1 1000 = .ok (st2, fine) ∧
      st2.books.find? (fun b => b.id == 1) =
        some { demoBook with borrowCount := demoBook.borrowCount + 1 }) :=
  ⟨⟨by decide, by decide, by decide, by decide, by decide⟩,
   borrow_return_roundtrip demoSt 1 1 (some 7) 0 1000 demoBook demoMember
     (by decide) (by decide) (by decide) (by decide) (by decide)⟩

/-- Fixture: a book carrying a year and an isbn. -/
def demoBook1999 : Book :=
  { demoBook with id := 3, year := some 1999, isbn := some "0441172717" }

/-- Fixture: catalog holding only `demoBook1999`. -/
def demoSt1999 : LibState := { books := [demoBook1999], members := [], loans := [] }

/-- Fixture: an update request that supplies no field at all. -/
def emptyBookUpdate : BookUpdateReq :=
  { title := none, author := none, genre := none,
    yearParsed := none, isbn := none, cover := none }

/-- Counterexample to C6: `PUT /books` builds its `$set` document with
`year: parseInt(data.year) || null` and `isbn: data.isbn || null`, so a
request that omits both fields overwrites the stored year and isbn with
null instead of leaving them untouched. -/
theorem update_clobbers_year_cx :
    demoSt1999.books.find? (fun b => b.id == 3) = some demoBook1999 ∧
    demoBook1999.year = some 1999 ∧
    demoBook1999.isbn = some "0441172717" ∧
    Option.map Book.year
      ((afterUpdateBook demoSt1999 3 emptyBookUpdate 5).books.find? (fun b => b.id == 3)) =
      some none ∧
    Option.map Book.isbn
      ((afterUpdateBook demoSt1999 3 emptyBookUpdate 5).books.find? (fun b => b.id == 3)) =
      some none ∧
    (some (none : Option Int) ≠ some (some (1999 : Int))) := by
  refine ⟨by decide, by decide, by decide, ?_, ?_, by decide⟩ <;> decide

/-- C6 amended: `PUT /books` leaves title, author, genre and cover at their
previous values when absent from the request and never touches status,
borrowedBy, dueDate, borrowCount or createdAt, but it always overwrites
year and isbn from the request (null when absent) and refreshes updatedAt;
an Update on an id that does not resolve fails NotFound and leaves the
store unchanged. -/
theorem update_book_amended (st : LibState) (id : Nat) (req : BookUpdateReq) (now : Int) :
    (∀ book, st.books.find? (fun b => b.id == id) = some book →
      updateBook st id req now =
        .ok { st with books :=
                updateFirst (fun b => b.id == id) (applyBookUpdate req now) st.books } ∧
      (afterUpdateBook st id req now).books.find? (fun b => b.id == id) =
        some (applyBookUpdate req now book) ∧
      (req.title = none → (applyBookUpdate req now book).title = book.title) ∧
      (req.author = none → (applyBookUpdate req now book).author = book.author) ∧
      (req.genre = none → (applyBookUpdate req now book).genre = book.genre) ∧
      (req.cover = none → (applyBookUpdate req now book).cover = book.cover) ∧
      (applyBookUpdate req now book).status = book.status ∧
      (applyBookUpdate req now book).borrowedBy = book.borrowedBy ∧
      (applyBookUpdate req now book).dueDate = book.dueDate ∧
      (applyBookUpdate req now book).borrowCount = book.borrowCount ∧
      (applyBookUpdate req now book).createdAt = book.createdAt ∧
      (req.yearParsed = none → (applyBookUpdate req now book).year = none) ∧
      (applyBookUpdate req now book).isbn = req.isbn ∧
      (applyBookUpdate req now book).updatedAt = now) ∧
    (st.books.find? (fun b => b.id == id) = none →
      updateBook st id req now = .error .notFound ∧
      afterUpdateBook st id req now = st) := by
  constructor
  · intro book hfind
    have hpb := List.find?_some hfind
    have hok : updateBook st id req now =
        .ok { st with books :=
                updateFirst (fun b => b.id == id) (applyBookUpdate req now) st.books } := by
      simp only [updateBook, hfind]
    refine ⟨hok, ?_, ?_, ?_, ?_, ?_, rfl, rfl, rfl, rfl, rfl, ?_, rfl, rfl⟩
    · rw [afterUpdateBook, hok]
      exact find?_updateFirst hfind hpb
    · intro h
      simp [applyBookUpdate, h]
    · intro h
      simp [applyBookUpdate, h]
    · intro h
      simp [applyBookUpdate, h]
    · intro h
      simp [applyBookUpdate, h]
    · intro h
      simp [applyBookUpdate, h]
  · intro hnone
    constructor
    · simp only [updateBook, hnone]
    · simp only [afterUpdateBook, updateBook, hnone]

/-- Witness for the amended C6 on the demo catalog. -/
theorem update_book_amended_witness :
    demoSt1999.books.find? (fun b => b.id == 3) = some demoBook1999 ∧
    (updateBook demoSt1999 3 emptyBookUpdate 5 =
        .ok { demoSt1999 with books :=
                (updateFirst (fun b => b.id == 3)
                  (applyBookUpdate emptyBookUpdate 5) demoSt1999.books) } ∧
      (afterUpdateBook demoSt1999 3 emptyBookUpdate 5).books.find? (fun b => b.id == 3) =
        some (applyBookUpdate emptyBookUpdate 5 demoBook1999) ∧
      (emptyBookUpdate.title = none →
        (applyBookUpdate emptyBookUpdate 5 demoBook1999).title = demoBook1999.title) ∧
      (emptyBookUpdate.author = none →
        (applyBookUpdate emptyBookUpdate 5 demoBook1999).author = demoBook1999.author) ∧
      (emptyBookUpdate.genre = none →
        (applyBookUpdate emptyBookUpdate 5 demoBook1999).genre = demoBook1999.genre) ∧
      (emptyBookUpdate.cover = none →
        (applyBookUpdate emptyBookUpdate 5 demoBook1999).cover = demoBook1999.cover) ∧
      (applyBookUpdate emptyBookUpdate 5 demoBook1999).status = demoBook1999.status ∧
      (applyBookUpdate emptyBookUpdate 5 demoBook1999).borrowedBy = demoBook1999.borrowedBy ∧
      (applyBookUpdate emptyBookUpdate 5 demoBook1999).dueDate = demoBook1999.dueDate ∧
      (applyBookUpdate emptyBookUpdate 5 demoBook1999).borrowCount = demoBook1999.borrowCount ∧
      (applyBookUpdate emptyBookUpdate 5 demoBook1999).createdAt = demoBook1999.createdAt ∧
      (emptyBookUpdate.yearParsed = none →
        (applyBookUpdate emptyBookUpdate 5 demoBook1999).year = none) ∧
      (applyBookUpdate emptyBookUpdate 5 demoBook1999).isbn = emptyBookUpdate.isbn ∧
      (applyBookUpdate emptyBookUpdate 5 demoBook1999).updatedAt = 5) :=
  ⟨by decide,
   (update_book_amended demoSt1999 3 emptyBookUpdate 5).1 demoBook1999 (by decide)⟩

/-- C7: the most-borrowed report returns at most 10 books, in non-increasing
`borrowCount` order, and books of equal `borrowCount` keep their insertion
order (the filtered subsequence at each count is a prefix of the catalog's). -/
theorem most_borrowed_spec (st : LibState) :
    (mostBorrowed st).length ≤ 10 ∧
    (mostBorrowed st).Pairwise (fun a b => b.borrowCount ≤ a.borrowCount) ∧
    ∀ c : Nat, ((mostBorrowed st).filter (fun b => b.borrowCount == c)) <+:
      (st.books.filter (fun b => b.borrowCount == c)) := by
  refine ⟨?_, ?_, ?_⟩
  · rw [mostBorrowed]
    exact List.length_take_le _ _
  · rw [mostBorrowed]
    exact (pairwise_sortByBorrowCountDesc st.books).sublist (List.take_sublist _ _)
  · intro c
    have hsplit : (sortByBorrowCountDesc st.books).filter (fun b => b.borrowCount == c) =
        (mostBorrowed st).filter (fun b => b.borrowCount == c) ++
          ((sortByBorrowCountDesc st.books).drop 10).filter (fun b => b.borrowCount == c) := by
      rw [mostBorrowed, ← List.filter_append, List.take_append_drop]
    exact ⟨((sortByBorrowCountDesc st.books).drop 10).filter (fun b => b.borrowCount == c),
      by rw [← hsplit, filter_sortByBorrowCountDesc]⟩

/-- The book list after `POST /books`: unchanged, or one defaulted book appended. -/
theorem afterCreateBook_books (st : LibState) (req : BookCreateReq) (newId : Nat) (now : Int) :
    (afterCreateBook st req newId now).books = st.books ∨
    ∃ t a, (afterCreateBook st req newId now).books =
      st.books ++ [newBookOf req t a newId now] := by
  unfold afterCreateBook createBook
  cases req.title <;> cases req.author
  · exact Or.inl rfl
  · exact Or.inl rfl
  · exact Or.inl rfl
  · exact Or.inr ⟨_, _, rfl⟩

/-- The book list after `PUT /books`: unchanged, or one book rewritten
through `applyBookUpdate`. -/
theorem afterUpdateBook_books (st : LibState) (id : Nat) (req : BookUpdateReq) (now : Int) :
    (afterUpdateBook st id req now).books = st.books ∨
    (afterUpdateBook st id req now).books =
      updateFirst (fun b => b.id == id) (applyBookUpdate req now) st.books := by
  unfold afterUpdateBook updateBook
  cases st.books.find? (fun b => b.id == id)
  · exact Or.inl rfl
  · exact Or.inr rfl

/-- The book list after `DELETE /books`: unchanged, or one book removed. -/
theorem afterDeleteBook_books (st : LibState) (id : Nat) :
    (afterDeleteBook st id).books = st.books ∨
    (afterDeleteBook st id).books = removeFirst (fun b => b.id == id) st.books := by
  unfold afterDeleteBook deleteBook
  cases st.books.find? (fun b => b.id == id)
  · exact Or.inl rfl
  · exact Or.inr rfl

/-- The book list after `POST /borrow`: unchanged, or one book rewritten
through `borrowBookUpd`. -/
theorem afterBorrow_books (st : LibState) (bookId memberId : Nat)
    (daysParsed : Option Int) (now : Int) :
    (afterBorrow st bookId memberId daysParsed now).books = st.books ∨
    (afterBorrow st bookId memberId daysParsed now).books =
      updateFirst (fun b => b.id == bookId)
        (borrowBookUpd memberId (now + parseDays daysParsed * dayMs)) st.books := by
  unfold afterBorrow borrow
  cases st.books.find? (fun b => b.id == bookId) with
  | none =>
    cases st.members.find? (fun m => m.id == memberId) <;> exact Or.inl rfl
  | some book =>
    cases st.members.find? (fun m => m.id == memberId) with
    | none => exact Or.inl rfl
    | some mem =>
      dsimp only
      by_cases h : (book.status == "Borrowed") = true
      · rw [if_pos h]
        exact Or.inl rfl
      · rw [if_neg h]
        exact Or.inr rfl

/-- The book list after `POST /return`: unchanged, or one book rewritten
through `returnBookUpd`. -/
theorem afterReturnBook_books (st : LibState) (bookId memberId : Nat) (now : Int) :
    (afterReturnBook st bookId memberId now).books = st.books ∨
    (afterReturnBook st bookId memberId now).books =
      updateFirst (fun b => b.id == bookId) returnBookUpd st.books := by
  unfold afterReturnBook returnBook
  cases st.books.find? (fun b => b.id == bookId) with
  | none => exact Or.inl rfl
  | some book =>
    dsimp only
    by_cases h : (book.status != "Borrowed") = true
    · rw [if_pos h]
      exact Or.inl rfl
    · rw [if_neg h]
      exact Or.inr rfl

theorem bookInv_newBookOf (req : BookCreateReq) (t a : String) (newId : Nat) (now : Int) :
    bookInv (newBookOf req t a newId now) := by
  constructor
  · simp [newBookOf]
  · simp [newBookOf]

theorem bookInv_applyBookUpdate (req : BookUpdateReq) (now : Int) (b : Book)
    (h : bookInv b) : bookInv (applyBookUpdate req now b) := by
  rcases h with ⟨h1, h2⟩
  exact ⟨h1, h2⟩

theorem bookInv_borrowBookUpd (memberId : Nat) (dueDate : Int) (b : Book) :
    bookInv (borrowBookUpd memberId dueDate b) := by
  constructor
  · simp [borrowBookUpd]
  · simp [borrowBookUpd]

theorem bookInv_returnBookUpd (b : Book) : bookInv (returnBookUpd b) := by
  constructor
  · simp [returnBookUpd]
  · simp [returnBookUpd]

/-- C8: the loan-field invariant — status=Borrowed iff borrowedBy and
dueDate are both present, status=Available iff both absent — holds for
every book after each of Create, Update, Delete, Borrow and Return,
whenever it held before. -/
theorem book_invariant_preserved (st : LibState)
    (hinv : ∀ b ∈ st.books, bookInv b) :
    (∀ req newId now, ∀ b ∈ (afterCreateBook st req newId now).books, bookInv b) ∧
    (∀ id req now, ∀ b ∈ (afterUpdateBook st id req now).books, bookInv b) ∧
    (∀ id, ∀ b ∈ (afterDeleteBook st id).books, bookInv b) ∧
    (∀ bookId memberId daysParsed now,
      ∀ b ∈ (afterBorrow st bookId memberId daysParsed now).books, bookInv b) ∧
    (∀ bookId memberId now,
      ∀ b ∈ (afterReturnBook st bookId memberId now).books, bookInv b) := by
  refine ⟨?_, ?_, ?_, ?_, ?_⟩
  · intro req newId now b hb
    rcases afterCreateBook_books st req newId now with h | ⟨t, a, h⟩
    · exact hinv b (h ▸ hb)
    · rw [h] at hb
      rcases List.mem_append.mp hb with hb | hb
      · exact hinv b hb
      · rcases List.mem_singleton.mp hb with rfl
        exact bookInv_newBookOf req t a newId now
  · intro id req now b hb
    rcases afterUpdateBook_books st id req now with h | h
    · exact hinv b (h ▸ hb)
    · rw [h] at hb
      rcases mem_updateFirst hb with hb | ⟨y, hy, _, rfl⟩
      · exact hinv b hb
      · exact bookInv_applyBookUpdate req now y (hinv y hy)
  · intro id b hb
    rcases afterDeleteBook_books st id with h | h
    · exact hinv b (h ▸ hb)
    · rw [h] at hb
      exact hinv b (mem_of_mem_removeFirst hb)
  · intro bookId memberId daysParsed now b hb
    rcases afterBorrow_books st bookId memberId daysParsed now with h | h
    · exact hinv b (h ▸ hb)
    · rw [h] at hb
      rcases mem_updateFirst hb with hb | ⟨y, _, _, rfl⟩
      · exact hinv b hb
      · exact bookInv_borrowBookUpd memberId _ y
  · intro bookId memberId now b hb
    rcases afterReturnBook_books st bookId memberId now with h | h
    · exact hinv b (h ▸ hb)
    · rw [h] at hb
      rcases mem_updateFirst hb with hb | ⟨y, _, _, rfl⟩
      · exact hinv b hb
      · exact bookInv_returnBookUpd y

/-- Witness for C8: the invariant holds on the demo library and is kept by
a borrow. -/
theorem book_invariant_preserved_witness :
    (∀ b ∈ demoSt.books, bookInv b) ∧
    (∀ b ∈ (afterBorrow demoSt 1 2 none 0).books, bookInv b) :=
  ⟨by decide,
   (book_invariant_preserved demoSt (by decide)).2.2.2.1 1 2 none 0⟩

/-- C9: `POST /members` requires name and email (400 MissingField
otherwise), and when a member with the requested email already exists it
fails Conflict and inserts nothing. -/
theorem create_member_spec (st : LibState) (name? email? role? : Option String)
    (newId : Nat) (now : Int) :
    ((name? = none ∨ email? = none) →
      createMember st name? email? role? newId now = .error .missingField ∧
      afterCreateMember st name? email? role? newId now = st) ∧
    (∀ name email, name? = some name → email? = some email →
      (∃ mem ∈ st.members, mem.email = email) →
      createMember st name? email? role? newId now = .error .conflict ∧
      afterCreateMember st name? email? role? newId now = st) := by
  constructor
  · intro hmiss
    have herr : createMember st name? email? role? newId now = .error .missingField := by
      rcases hmiss with h | h <;> rw [h]
      · rfl
      · cases name? <;> rfl
    exact ⟨herr, by rw [afterCreateMember, herr]⟩
  · intro name email hname hemail hdup
    have hsome : (st.members.find? (fun m => m.email == email)).isSome = true := by
      refine List.find?_isSome.mpr ?_
      rcases hdup with ⟨mem, hmem, he⟩
      exact ⟨mem, hmem, by simp [he]⟩
    have herr : createMember st name? email? role? newId now = .error .conflict := by
      rw [hname, hemail]
      simp only [createMember, hsome, if_pos]
    exact ⟨herr, by rw [afterCreateMember, herr]⟩

/-- Witness for C9: creating a member with Alice's email fails Conflict,
and a request without a name fails MissingField. -/
theorem create_member_spec_witness :
    ((some "Eve" : Option String) = some "Eve" ∧
      (some "a@x.com" : Option String) = some "a@x.com" ∧
      (∃ mem ∈ demoSt.members, mem.email = "a@x.com")) ∧
    (createMember demoSt (some "Eve") (some "a@x.com") none 9 0 = .error .conflict ∧
      afterCreateMember demoSt (some "Eve") (some "a@x.com") none 9 0 = demoSt) ∧
    (createMember demoSt none (some "e@x.com") none 9 0 = .error .missingField ∧
      afterCreateMember demoSt none (some "e@x.com") none 9 0 = demoSt) :=
  ⟨⟨rfl, rfl, ⟨demoMember, by decide, by decide⟩⟩,
   (create_member_spec demoSt (some "Eve") (some "a@x.com") none 9 0).2 "Eve" "a@x.com"
     rfl rfl ⟨demoMember, by decide, by decide⟩,
   (create_member_spec demoSt none (some "e@x.com") none 9 0).1 (Or.inl rfl)⟩

/-- C10: the `/return` handler never compares the supplied memberId with
`book.borrowedBy`: for any Borrowed book it succeeds for every memberId m,
moves the book to Available with both loan fields cleared, strips every
entry for this bookId from member m's `borrowedBooks` (when m resolves),
and leaves every member other than m untouched — including the actual
borrower. -/
theorem return_ignores_borrower (st : LibState) (bookId m : Nat) (now : Int)
    (book : Book)
    (hb : st.books.find? (fun b => b.id == bookId) = some book)
    (hstat : book.status = "Borrowed") :
    ∃ st' fine, returnBook st bookId m now = .ok (st', fine) ∧
      st'.books.find? (fun b => b.id == bookId) = some (returnBookUpd book) ∧
      (returnBookUpd book).status = "Available" ∧
      (returnBookUpd book).borrowedBy = none ∧
      (returnBookUpd book).dueDate = none ∧
      (∀ mem, st.members.find? (fun x => x.id == m) = some mem →
        st'.members.find? (fun x => x.id == m) = some (returnMemberUpd bookId mem) ∧
        (returnMemberUpd bookId mem).borrowedBooks =
          mem.borrowedBooks.filter (fun e => !(e.bookId == bookId))) ∧
      (∀ mem ∈ st.members, mem.id ≠ m → mem ∈ st'.members) := by
  have hpb := List.find?_some hb
  have h1 := returnBook_ok st bookId m now book hb hstat
  refine ⟨_, _, h1, ?_, rfl, rfl, rfl, ?_, ?_⟩
  · exact find?_updateFirst hb hpb
  · intro mem hmem
    have hpm := List.find?_some hmem
    exact ⟨find?_updateFirst hmem hpm, rfl⟩
  · intro mem hmem hne
    refine mem_updateFirst_of_not hmem ?_
    simpa using hne

/-- Witness for C10: member 2 returns the book that member 1 borrowed; the
return succeeds and the book becomes Available. -/
theorem return_ignores_borrower_witness :
    (demoBorrowedSt.books.find? (fun b => b.id == 1) = some demoBorrowedBook ∧
      demoBorrowedBook.status = "Borrowed" ∧
      demoBorrowedBook.borrowedBy = some 1) ∧
    (∃ st' fine, returnBook demoBorrowedSt 1 2 0 = .ok (st', fine) ∧
      st'.books.find? (fun b => b.id == 1) = some (returnBookUpd demoBorrowedBook) ∧
      (returnBookUpd demoBorrowedBook).status = "Available" ∧
      (returnBookUpd demoBorrowedBook).borrowedBy = none ∧
      (returnBookUpd demoBorrowedBook).dueDate = none ∧
      (∀ mem, demoBorrowedSt.members.find? (fun x => x.id == 2) = some mem →
        st'.members.find? (fun x => x.id == 2) = some (returnMemberUpd 1 mem) ∧
        (returnMemberUpd 1 mem).borrowedBooks =
          mem.borrowedBooks.filter (fun e => !(e.bookId == 1))) ∧
      (∀ mem ∈ demoBorrowedSt.members, mem.id ≠ 2 → mem ∈ st'.members)) :=
  ⟨⟨by decide, by decide, by decide⟩,
   return_ignores_borrower demoBorrowedSt 1 2 0 demoBorrowedBook (by decide) (by decide)⟩

end LibraryManage
